import Mathlib

/-!
Shallow embedding of the zkteco-api attendance relay.

The source is a Node.js service (src/index.js plus the split
helpers/services/controllers variant) that polls a ZKTeco biometric
terminal, normalizes and enriches attendance records, caches a snapshot,
and fans records out over a pub/sub channel; the device can also push
records over an HTTP callback (`POST /iclock/cdata`).

Conventions of the embedding:
* JS dynamic response shapes (bare array / `{data: [...]}` wrapper /
  keyed object) are a tagged union `RawResponse`, and the source's
  normalization ternary is `normalizeResponse`.
* Timestamps (`Date.now()`, `new Date(s).getTime()`) are `Int`
  milliseconds; `new Date(string)` parsing is an environment function
  `String -> Option Int` (`none` models `NaN`, which fails both
  comparisons of the window filter, exactly as NaN does in JS).
* Each awaited device/pub-sub operation's outcome is a field of
  `TickEnv` (an `Except String` value: `.error` models a thrown
  exception); the module-global mutable variables of index.js are the
  fields of `EngineState`; `console` logging is the `LogEvent` list
  returned by each step.
* Try/catch is translated by matching on the `Except` outcome at the
  exact places the source wraps code in try/catch; the third component
  of `publishAttendances`'s result is the exception escaping the whole
  tick, if any.
-/

/-- Raw user record as returned by the device SDK (`u.userId`, `u.name`, `u.role`). -/
structure RawUser where
  userId : Nat
  name : String
  role : Nat
deriving DecidableEq

/-- Cached enrolled user (`enrolledUsers` entries: `user_id`, `name`, `role`). -/
structure EnrolledUser where
  user_id : Nat
  name : String
  role : Nat
deriving DecidableEq

/-- Raw attendance log entry from `device.getAttendances()` (see the
`AttendanceLog` interface in the repository's type declarations):
`sn`, `user_id`, `record_time` (a timestamp string), `type`, `state`. -/
structure AttEntry where
  sn : Nat
  user_id : Nat
  record_time : String
  type : Nat
  state : Nat
deriving DecidableEq

/-- Enriched log record built in `publishAttendances`:
`sn, employee_id, name, record_time, type, state`. -/
structure EnrichedLog where
  sn : Nat
  employee_id : Nat
  name : String
  record_time : String
  type : Nat
  state : Nat
deriving DecidableEq

/-- Device metadata assembled by `fetchDeviceDetailsAndUsers` from the
thirteen getter calls. -/
structure DeviceDetails where
  info : String
  attendanceSize : Nat
  pin : String
  currentTime : String
  faceOn : String
  ssr : String
  firmware : String
  deviceName : String
  platform : String
  os : String
  vendor : String
  productTime : String
  macAddress : String
deriving DecidableEq

/-- The three dynamic shapes a capability fetch can return
(`Array.isArray(raw)`, object with an array `data` field, or a plain
keyed object whose values are the records). -/
inductive RawResponse (α : Type) where
  | list (xs : List α)
  | wrapped (xs : List α)
  | keyed (kvs : List (String × α))
deriving DecidableEq

/-- Normalization ternary used for both `getUsers` and `getAttendances`
results: `Array.isArray(raw) ? raw : Array.isArray(raw.data) ? raw.data
: Object.values(raw)`. `Object.values` of a plain object yields the
values in property order, i.e. the second components in order. -/
def normalizeResponse {α : Type} : RawResponse α → List α
  | RawResponse.list xs => xs
  | RawResponse.wrapped xs => xs
  | RawResponse.keyed kvs => kvs.map Prod.snd

/-- Name lookup of the enrichment step:
`enrolledUsers.find(u => u.user_id === entry.user_id)?.name || "Unknown"`.
JS `||` replaces any falsy left operand, and the only falsy string is
`""`, so an entry found with an empty name also yields `"Unknown"`. -/
def lookupName (users : List EnrolledUser) (uid : Nat) : String :=
  match users.find? (fun u => u.user_id == uid) with
  | some u => if u.name = "" then "Unknown" else u.name
  | none => "Unknown"

/-- Enrichment map of `publishAttendances`: keeps `sn`, `record_time`,
`type`, `state`, renames `user_id` to `employee_id`, and attaches the
looked-up `name`. -/
def enrichEntry (users : List EnrolledUser) (e : AttEntry) : EnrichedLog :=
  { sn := e.sn
    employee_id := e.user_id
    name := lookupName users e.user_id
    record_time := e.record_time
    type := e.type
    state := e.state }

/-- Date filter predicate of `publishAttendances`:
`entryTs >= startOfYear && entryTs <= now` where
`entryTs = new Date(entry.record_time).getTime()`. An unparseable
timestamp (`NaN`, modeled as `none`) fails both comparisons. -/
def inWindow (parse : String → Option Int) (startOfYear now : Int) (e : AttEntry) : Bool :=
  match parse e.record_time with
  | some ts => decide (startOfYear ≤ ts) && decide (ts ≤ now)
  | none => false

/-- The `enrichedLogs` pipeline of `publishAttendances`: filter the
normalized array to the inclusive [startOfYear, now] window, then map
the enrichment over the survivors. -/
def enrichLogs (users : List EnrolledUser) (parse : String → Option Int)
    (startOfYear now : Int) (logsArray : List AttEntry) : List EnrichedLog :=
  (logsArray.filter (inWindow parse startOfYear now)).map (enrichEntry users)

/-- Whitespace test matching what JS `String.prototype.trim` strips for
the ASCII payloads of this protocol. -/
def isWS (c : Char) : Bool :=
  c == ' ' || c == '\t' || c == '\n' || c == '\r'

/-- Trim of a character list: drop whitespace from both ends (JS `trim()`). -/
def trimChars (cs : List Char) : List Char :=
  ((cs.dropWhile isWS).reverse.dropWhile isWS).reverse

/-- Split on the JS regex `/\r?\n/`: a split point is either a bare
newline or a carriage-return/newline pair. -/
def splitRN : List Char → List (List Char)
  | [] => [[]]
  | '\r' :: '\n' :: rest => [] :: splitRN rest
  | '\n' :: rest => [] :: splitRN rest
  | c :: rest =>
    match splitRN rest with
    | [] => [[c]]
    | l :: ls => (c :: l) :: ls

/-- Split on a separator character (JS `"..".split(",")` semantics:
splitting the empty string yields one empty field). -/
def splitOnChar (sep : Char) : List Char → List (List Char)
  | [] => [[]]
  | c :: rest =>
    if c == sep then [] :: splitOnChar sep rest
    else
      match splitOnChar sep rest with
      | [] => [[c]]
      | l :: ls => (c :: l) :: ls

/-- One parsed push record: `const [, userId, time] = l.split(",")`.
A missing field is `undefined` in JS, modeled as `none`. -/
structure PushRecord where
  userId : Option String
  time : Option String
deriving DecidableEq

/-- Marker prefix of an attendance push line. -/
def attlogMarker : List Char := ['A', 'T', 'T', 'L', 'O', 'G']

/-- The push-ingress parser `parseAttlog` (helpers/cloudDataHelper.js,
inlined identically in the monolithic index.js handler): trim the raw
body, split into lines on `/\r?\n/`, keep lines starting with
`ATTLOG`, and split each kept line on commas into `(_, userId, time)`. -/
def parseAttlog (raw : String) : List PushRecord :=
  (((splitRN (trimChars raw.data)).filter (fun l => attlogMarker.isPrefixOf l)).map
    (fun l =>
      let parts := (splitOnChar ',' l).map (fun cs => String.mk cs)
      { userId := parts.get? 1, time := parts.get? 2 }))

/-- Console log lines the reconciliation code can emit, one constructor
per distinct `console.log`/`warn`/`error` call site of the tick path. -/
inductive LogEvent where
  | connectedOk
  | connectFailed (msg : String)
  | offlineWarn
  | activeLog
  | inactiveLog (msg : String)
  | detailsUsersError (msg : String)
  | usersRetrieved (n : Nat)
deriving DecidableEq

/-- Snapshot payload built by `publishAttendances`:
`timestamp, device_details, users, logs`. -/
structure Payload where
  timestamp : Int
  device_details : Option DeviceDetails
  users : List EnrolledUser
  logs : List EnrichedLog
deriving DecidableEq

/-- The module-global mutable state of index.js that the tick reads and
writes: `deviceConnected` stands for "device is non-null and its socket
is neither destroyed nor closed" (the health check at the top of
`publishAttendances`), the rest are the globals of the same names. -/
structure EngineState where
  deviceConnected : Bool
  deviceWasPreviouslyActive : Bool
  deviceDetails : Option DeviceDetails
  enrolledUsers : List EnrolledUser
  lastPublishedPayload : Option Payload

/-- Outcome of every awaited operation one tick can perform, plus the
clock and timestamp parser; an `Except.error` models the operation
throwing. `detailsResult` stands for the thirteen metadata getters
(first failure aborts them all), `usersResult` for `getUsers`,
`attendResult` for `getAttendances`, `publishResult` for
`pub_client.publish`, `destroyResult` for `device.client.destroy`. -/
structure TickEnv where
  connectResult : Except String Unit
  detailsResult : Except String DeviceDetails
  usersResult : Except String (RawResponse RawUser)
  attendResult : Except String (RawResponse AttEntry)
  publishResult : Except String Unit
  destroyResult : Except String Unit
  nowMs : Int
  startOfYearMs : Int
  parseTime : String → Option Int

/-- Boolean success test for an `Except` outcome. -/
def isOkE {ε α : Type} : Except ε α → Bool
  | Except.ok _ => true
  | Except.error _ => false

/-- The `connectDevice` function: creates the socket, returning `true`
on success and `false` on a caught error (its try/catch is internal, so
it never throws to its caller). -/
def connectDevice (env : TickEnv) : Bool × List LogEvent :=
  match env.connectResult with
  | Except.ok _ => (true, [LogEvent.connectedOk])
  | Except.error e => (false, [LogEvent.connectFailed e])

/-- The `fetchDeviceDetailsAndUsers` function. One try/catch wraps the
metadata getters, the `deviceDetails` assignment, `getUsers`, and the
`enrolledUsers` assignment; a failure after `deviceDetails` was
assigned keeps the new details but leaves `enrolledUsers` cached, and
the caught error only logs. -/
def fetchDeviceDetailsAndUsers (env : TickEnv) (s : EngineState) : EngineState × List LogEvent :=
  match env.detailsResult with
  | Except.error e => (s, [LogEvent.detailsUsersError e])
  | Except.ok d =>
    let s1 := { s with deviceDetails := some d }
    match env.usersResult with
    | Except.error e => (s1, [LogEvent.detailsUsersError e])
    | Except.ok rawUsers =>
      let usersArray := normalizeResponse rawUsers
      let mapped := usersArray.map (fun u =>
        ({ user_id := u.userId, name := u.name, role := u.role } : EnrolledUser))
      let s2 := { s1 with enrolledUsers := mapped }
      (s2, [LogEvent.usersRetrieved mapped.length])

/-- Body of the try block of section (B) of `publishAttendances`, in
source order: `getAttendances` (may throw), the once-per-transition
"active" log, normalization, window filter plus enrichment, payload
construction, `lastPublishedPayload` assignment, then `publish` (may
throw). The returned `Except` is the exception leaving the block, and
the returned state is where the mutations had got to when it was
raised (JS mutations survive into the catch handler). -/
def runFetchBlock (env : TickEnv) (s : EngineState) :
    EngineState × List LogEvent × Except String Unit :=
  match env.attendResult with
  | Except.error e => (s, [], Except.error e)
  | Except.ok rawLogs =>
    let sl1 :=
      if s.deviceWasPreviouslyActive then (s, ([] : List LogEvent))
      else ({ s with deviceWasPreviouslyActive := true }, [LogEvent.activeLog])
    let s1 := sl1.1
    let logsArray := normalizeResponse rawLogs
    let enriched := enrichLogs s1.enrolledUsers env.parseTime env.startOfYearMs env.nowMs logsArray
    let payload : Payload :=
      { timestamp := env.nowMs
        device_details := s1.deviceDetails
        users := s1.enrolledUsers
        logs := enriched }
    let s2 := { s1 with lastPublishedPayload := some payload }
    match env.publishResult with
    | Except.ok _ => (s2, sl1.2, Except.ok ())
    | Except.error e => (s2, sl1.2, Except.error e)

/-- Catch handler of section (B): log the "inactive" transition once,
clear the active flag, then destroy the socket inside its own
try/catch whose handler ignores the error (a successful destroy makes
the next tick reconnect; a failed destroy leaves the socket as it
was). -/
def catchFetch (env : TickEnv) (e : String) (s : EngineState) : EngineState × List LogEvent :=
  let sl1 :=
    if s.deviceWasPreviouslyActive then
      ({ s with deviceWasPreviouslyActive := false }, [LogEvent.inactiveLog e])
    else (s, ([] : List LogEvent))
  let s2 :=
    match env.destroyResult with
    | Except.ok _ => { sl1.1 with deviceConnected := false }
    | Except.error _ => sl1.1
  (s2, sl1.2)

/-- Section (B) of `publishAttendances`: the try block with its catch
handler attached. Every exception of the block flows into
`catchFetch`, so the composite reports `Except.ok`. -/
def partB (env : TickEnv) (s : EngineState) :
    EngineState × List LogEvent × Except String Unit :=
  match runFetchBlock env s with
  | (s1, l1, Except.ok _) => (s1, l1, Except.ok ())
  | (s1, l1, Except.error e) =>
    let r := catchFetch env e s1
    (r.1, l1 ++ r.2, Except.ok ())

/-- One reconciliation tick (`publishAttendances`). Section (A): if the
socket is unhealthy, reconnect; on reconnect success set
`deviceWasPreviouslyActive := true`, refresh details and users, and
fall through to (B); on reconnect failure log the offline warning only
if the device was previously active, and skip the cycle. If the socket
is healthy, go straight to (B). The third component is the exception
escaping the tick, if any. -/
def publishAttendances (env : TickEnv) (s : EngineState) :
    EngineState × List LogEvent × Except String Unit :=
  if s.deviceConnected then partB env s
  else
    match connectDevice env with
    | (true, cl) =>
      let s1 := { s with deviceConnected := true, deviceWasPreviouslyActive := true }
      let r := fetchDeviceDetailsAndUsers env s1
      match partB env r.1 with
      | (s3, bl, res) => (s3, cl ++ r.2 ++ bl, res)
    | (false, cl) =>
      if s.deviceWasPreviouslyActive then
        ({ s with deviceWasPreviouslyActive := false }, cl ++ [LogEvent.offlineWarn], Except.ok ())
      else (s, cl, Except.ok ())

/-- One tick as the scheduler sees it: the state and log effects of
`publishAttendances`. -/
def tick (env : TickEnv) (s : EngineState) : EngineState × List LogEvent :=
  match publishAttendances env s with
  | (s', logs, _) => (s', logs)

/-- A run of consecutive scheduled ticks, threading the engine state
and concatenating the emitted log events. -/
def runTicks (envs : List TickEnv) (s : EngineState) : EngineState × List LogEvent :=
  match envs with
  | [] => (s, [])
  | e :: rest =>
    let r1 := tick e s
    let r2 := runTicks rest r1.1
    (r2.1, r1.2 ++ r2.2)

/-- Push record after `handleCdata` tags the parsed fields with the
device serial from the request (`{ sn, userId, time }`). -/
structure CdataRecord where
  sn : String
  userId : Option String
  time : Option String
deriving DecidableEq

/-- One message put on the distribution channel by the push path:
the encoded `{ sn, logs: records }` object. -/
structure ChannelMsg where
  sn : String
  logs : List CdataRecord
deriving DecidableEq

/-- Result of handling one `POST /iclock/cdata` request: the plaintext
response sent back to the device, the messages delivered to the
channel, and the caught-and-logged publish errors. -/
structure CdataOut where
  response : String
  published : List ChannelMsg
  errorsLogged : List String
deriving DecidableEq

/-- The `publishToRedis` helper: publishes only when the client exists
and exposes a `publish` function; the publish itself may throw. -/
def publishToRedis (clientHasPublish : Bool) (outcome : Except String Unit)
    (msg : ChannelMsg) : Except String (List ChannelMsg) :=
  if clientHasPublish then
    match outcome with
    | Except.ok _ => Except.ok [msg]
    | Except.error e => Except.error e
  else Except.ok []

/-- The `handleCdata` service: parse the raw body, tag each record with
the serial, and if any record parsed and the pub client is set,
publish the batch inside a try/catch that logs a publish error; in
every case answer the plaintext "OK". `pubClientSet` is the service's
`pubClient` null check, `clientHasPublish` the helper's own guard. -/
def handleCdata (pubClientSet clientHasPublish : Bool) (outcome : Except String Unit)
    (sn raw : String) : CdataOut :=
  let records := (parseAttlog raw).map (fun r =>
    ({ sn := sn, userId := r.userId, time := r.time } : CdataRecord))
  if records.length != 0 && pubClientSet then
    match publishToRedis clientHasPublish outcome { sn := sn, logs := records } with
    | Except.ok sent => { response := "OK", published := sent, errorsLogged := [] }
    | Except.error e => { response := "OK", published := [], errorsLogged := [e] }
  else { response := "OK", published := [], errorsLogged := [] }

/-- Whole-process state visible to an HTTP handler: the pull engine's
globals plus the history of messages sent to the distribution
channel. -/
structure ServerState where
  engine : EngineState
  channelMsgs : List ChannelMsg

/-- The `POST /iclock/cdata` route (`postCdata` controller over
`handleCdata`): runs the push handler against the process state and
sends its result string; the only state it touches is the channel. -/
def postCdataStep (pubClientSet clientHasPublish : Bool) (outcome : Except String Unit)
    (st : ServerState) (sn raw : String) : ServerState × String :=
  let out := handleCdata pubClientSet clientHasPublish outcome sn raw
  ({ st with channelMsgs := st.channelMsgs ++ out.published }, out.response)

/-- Registration state of the pub/sub subscription channel: the
ordered list of handler registrations `sub_client.on(REDIS_CHANNEL, h)`
has installed (one entry per live subscriber connection). -/
structure Bus where
  handlers : List Nat
deriving DecidableEq

/-- Socket.IO connection handler: registers exactly one message
handler on the subscription channel (`sub_client.on` appends a
listener). -/
def subscribeHandler (b : Bus) (h : Nat) : Bus :=
  { handlers := b.handlers ++ [h] }

/-- Socket disconnect handler: `sub_client.off(REDIS_CHANNEL,
messageHandler)` removes that one registration. -/
def unsubscribeHandler (b : Bus) (h : Nat) : Bus :=
  { handlers := b.handlers.erase h }

/-- A publish delivered while a subscriber disconnects: the event
emitter iterates over a snapshot of the listener list, so delivery
reaches every handler registered when the publish started, and the
disconnecting subscriber's registration is removed for later
publishes; both effects are total (no crash). -/
def emitDuringDisconnect (b : Bus) (h : Nat) : List Nat × Bus :=
  (b.handlers, unsubscribeHandler b h)

/-- Placeholder device metadata for concrete runs. -/
def dummyDetails : DeviceDetails :=
  { info := "", attendanceSize := 0, pin := "", currentTime := "", faceOn := ""
    ssr := "", firmware := "", deviceName := "", platform := "", os := ""
    vendor := "", productTime := "", macAddress := "" }

/-- Engine state of a healthy, already-active device. -/
def sActive : EngineState :=
  { deviceConnected := true, deviceWasPreviouslyActive := true
    deviceDetails := none, enrolledUsers := [], lastPublishedPayload := none }

/-- Engine state at the start of an outage: socket dead, device was
previously active. -/
def sOutage : EngineState :=
  { deviceConnected := false, deviceWasPreviouslyActive := true
    deviceDetails := none, enrolledUsers := [], lastPublishedPayload := none }

/-- Tick environment where every device operation succeeds. -/
def envTickOk : TickEnv :=
  { connectResult := Except.ok (), detailsResult := Except.ok dummyDetails
    usersResult := Except.ok (RawResponse.list []), attendResult := Except.ok (RawResponse.list [])
    publishResult := Except.ok (), destroyResult := Except.ok ()
    nowMs := 0, startOfYearMs := 0, parseTime := fun _ => none }

/-- Tick environment where every device operation throws. -/
def envTickFail : TickEnv :=
  { connectResult := Except.error "down", detailsResult := Except.error "down"
    usersResult := Except.error "down", attendResult := Except.error "down"
    publishResult := Except.error "down", destroyResult := Except.error "down"
    nowMs := 0, startOfYearMs := 0, parseTime := fun _ => none }

/-- Every exception raised inside section (B) is caught there, so the
composed section never reports one. -/
theorem partB_third (env : TickEnv) (s : EngineState) :
    (partB env s).2.2 = Except.ok () := by
  unfold partB
  rcases h : runFetchBlock env s with ⟨s1, l1, r⟩
  cases r <;> simp

/-- A fully successful tick on an already-active, connected device
changes only the cached payload and emits no log event at all. -/
theorem tick_active_step (env : TickEnv) (s : EngineState)
    (hc : s.deviceConnected = true) (hw : s.deviceWasPreviouslyActive = true)
    (hra : isOkE env.attendResult = true) (hrp : isOkE env.publishResult = true) :
    ∃ p, tick env s = ({ s with lastPublishedPayload := some p }, []) := by
  cases ha : env.attendResult with
  | error e =>
    rw [ha] at hra
    exact absurd hra (by simp [isOkE])
  | ok raw =>
    cases hp : env.publishResult with
    | error e =>
      rw [hp] at hrp
      exact absurd hrp (by simp [isOkE])
    | ok u =>
      refine ⟨{ timestamp := env.nowMs, device_details := s.deviceDetails
                users := s.enrolledUsers
                logs := enrichLogs s.enrolledUsers env.parseTime env.startOfYearMs env.nowMs
                  (normalizeResponse raw) }, ?_⟩
      simp [tick, publishAttendances, hc, partB, runFetchBlock, ha, hp, hw]

/-- A run of fully successful ticks on an already-active, connected
device emits no log events. -/
theorem run_active (envs : List TickEnv) :
    ∀ (s : EngineState), s.deviceConnected = true → s.deviceWasPreviouslyActive = true →
      (∀ e ∈ envs, isOkE e.attendResult = true ∧ isOkE e.publishResult = true) →
      (runTicks envs s).2 = [] := by
  induction envs with
  | nil =>
    intro s _ _ _
    rfl
  | cons e rest ih =>
    intro s hc hw hall
    obtain ⟨p, hp⟩ := tick_active_step e s hc hw
      (hall e (List.mem_cons_self e rest)).1 (hall e (List.mem_cons_self e rest)).2
    have ih' := ih ({ s with lastPublishedPayload := some p })
      (by simpa using hc) (by simpa using hw)
      (fun x hx => hall x (List.mem_cons_of_mem e hx))
    simp [runTicks, hp, ih']

/-- First tick of an outage while the device was previously active:
the failed-connect error plus the offline warning, and the active flag
is cleared. -/
theorem tick_off_first (env : TickEnv) (s : EngineState) (m : String)
    (hc : s.deviceConnected = false) (hw : s.deviceWasPreviouslyActive = true)
    (hcr : env.connectResult = Except.error m) :
    tick env s = ({ s with deviceWasPreviouslyActive := false },
      [LogEvent.connectFailed m, LogEvent.offlineWarn]) := by
  simp [tick, publishAttendances, hc, connectDevice, hcr, hw]

/-- Later ticks of a sustained outage: only the failed-connect error,
no repeated offline warning, and the state is unchanged. -/
theorem tick_off_rest (env : TickEnv) (s : EngineState) (m : String)
    (hc : s.deviceConnected = false) (hw : s.deviceWasPreviouslyActive = false)
    (hcr : env.connectResult = Except.error m) :
    tick env s = (s, [LogEvent.connectFailed m]) := by
  simp [tick, publishAttendances, hc, connectDevice, hcr, hw]

/-- A sustained outage after the offline warning has fired: every
further failed reconnect tick leaves the state alone and never emits
another offline warning. -/
theorem run_off_rest (envs : List TickEnv) :
    ∀ (s : EngineState), s.deviceConnected = false → s.deviceWasPreviouslyActive = false →
      (∀ e ∈ envs, isOkE e.connectResult = false) →
      (runTicks envs s).2.count LogEvent.offlineWarn = 0 ∧ (runTicks envs s).1 = s := by
  induction envs with
  | nil =>
    intro s _ _ _
    exact ⟨rfl, rfl⟩
  | cons e rest ih =>
    intro s hc hw hall
    obtain ⟨m, hm⟩ : ∃ m, e.connectResult = Except.error m := by
      cases h : e.connectResult with
      | error m => exact ⟨m, rfl⟩
      | ok u =>
        have := hall e (List.mem_cons_self e rest)
        rw [h] at this
        exact absurd this (by simp [isOkE])
    have hstep := tick_off_rest e s m hc hw hm
    have ih' := ih s hc hw (fun x hx => hall x (List.mem_cons_of_mem e hx))
    simp [runTicks, hstep, ih'.1, ih'.2, List.count_cons]

/-- C4 part for the witness and the claim: transition logging fires at
state changes only. While Active, consecutive fully successful ticks
emit zero further "active" events (in fact no events at all); a
sustained outage that began while the device was previously active
emits the offline warning exactly once, on its first failed reconnect
tick. -/
theorem c4_logging_once_per_transition :
    (∀ (s : EngineState) (envs : List TickEnv),
      s.deviceConnected = true → s.deviceWasPreviouslyActive = true →
      (∀ e ∈ envs, isOkE e.attendResult = true ∧ isOkE e.publishResult = true) →
      (runTicks envs s).2.count LogEvent.activeLog = 0)
    ∧ (∀ (s : EngineState) (e0 : TickEnv) (rest : List TickEnv),
      s.deviceConnected = false → s.deviceWasPreviouslyActive = true →
      (∀ e ∈ e0 :: rest, isOkE e.connectResult = false) →
      (runTicks (e0 :: rest) s).2.count LogEvent.offlineWarn = 1
      ∧ (tick e0 s).2.count LogEvent.offlineWarn = 1) := by
  constructor
  · intro s envs hc hw hall
    rw [run_active envs s hc hw hall]
    rfl
  · intro s e0 rest hc hw hall
    obtain ⟨m, hm⟩ : ∃ m, e0.connectResult = Except.error m := by
      cases h : e0.connectResult with
      | error m => exact ⟨m, rfl⟩
      | ok u =>
        have := hall e0 (List.mem_cons_self e0 rest)
        rw [h] at this
        exact absurd this (by simp [isOkE])
    have hstep := tick_off_first e0 s m hc hw hm
    have hrest := run_off_rest rest ({ s with deviceWasPreviouslyActive := false })
      (by simpa using hc) (by simp)
      (fun x hx => hall x (List.mem_cons_of_mem e0 hx))
    constructor
    · simp [runTicks, hstep, hrest.1, List.count_cons, List.count_append]
    · simp [hstep, List.count_cons]

/-- Witness for C4: five successful ticks while Active emit zero
"active" events; a three-tick outage from a previously-active state
warns exactly once. -/
theorem c4_logging_once_per_transition_witness :
    (runTicks [envTickOk, envTickOk, envTickOk, envTickOk, envTickOk] sActive).2.count
      LogEvent.activeLog = 0
    ∧ (runTicks [envTickFail, envTickFail, envTickFail] sOutage).2.count
      LogEvent.offlineWarn = 1 :=
  ⟨c4_logging_once_per_transition.1 sActive [envTickOk, envTickOk, envTickOk, envTickOk, envTickOk]
      rfl rfl
      (by
        intro e he
        simp only [List.mem_cons, List.not_mem_nil, or_false] at he
        rcases he with rfl | rfl | rfl | rfl | rfl <;> exact ⟨rfl, rfl⟩),
   (c4_logging_once_per_transition.2 sOutage envTickFail [envTickFail, envTickFail]
      rfl rfl
      (by
        intro e he
        simp only [List.mem_cons, List.not_mem_nil, or_false] at he
        rcases he with rfl | rfl | rfl <;> rfl)).1⟩

/-- C5: one tick never lets an exception escape to the scheduler, for
every combination of operation outcomes; and an attendance-fetch
failure on a connected device leaves the cached payload, the user
directory and the device details untouched (only the connectivity
flags change, so the process retries next tick). -/
theorem c5_tick_never_throws :
    ∀ (env : TickEnv) (s : EngineState),
      (publishAttendances env s).2.2 = Except.ok ()
      ∧ (∀ e, s.deviceConnected = true → env.attendResult = Except.error e →
          ((publishAttendances env s).1.lastPublishedPayload = s.lastPublishedPayload
           ∧ (publishAttendances env s).1.enrolledUsers = s.enrolledUsers
           ∧ (publishAttendances env s).1.deviceDetails = s.deviceDetails)) := by
  intro env s
  constructor
  · cases hc : s.deviceConnected with
    | true =>
      simp only [publishAttendances, hc, if_true]
      exact partB_third env s
    | false =>
      cases hcr : env.connectResult with
      | ok u =>
        simp only [publishAttendances, hc, Bool.false_eq_true, if_false, connectDevice, hcr]
        rcases hB : partB env
            (fetchDeviceDetailsAndUsers env
              { s with deviceConnected := true, deviceWasPreviouslyActive := true }).1
          with ⟨s3, bl, res⟩
        have h3 := partB_third env
          (fetchDeviceDetailsAndUsers env
            { s with deviceConnected := true, deviceWasPreviouslyActive := true }).1
        rw [hB] at h3
        simpa [hB] using h3
      | error m =>
        cases hw : s.deviceWasPreviouslyActive <;>
          simp [publishAttendances, hc, connectDevice, hcr, hw]
  · intro e hc ha
    have hrun : runFetchBlock env s = (s, [], Except.error e) := by
      simp [runFetchBlock, ha]
    cases hw : s.deviceWasPreviouslyActive <;> cases hd : env.destroyResult <;>
      simp [publishAttendances, hc, partB, hrun, catchFetch, hw, hd]

/-- Witness for C5: a tick whose every device operation throws still
returns normally and keeps the cached payload. -/
theorem c5_tick_never_throws_witness :
    (publishAttendances envTickFail sActive).2.2 = Except.ok ()
    ∧ (publishAttendances envTickFail sActive).1.lastPublishedPayload
      = sActive.lastPublishedPayload :=
  ⟨(c5_tick_never_throws envTickFail sActive).1,
   ((c5_tick_never_throws envTickFail sActive).2 "down" rfl rfl).1⟩

/-- Enrichment keeps every field of the raw entry (only adding the
name), so it is injective in the entry. -/
theorem enrichEntry_inj (users : List EnrolledUser) (a b : AttEntry)
    (h : enrichEntry users a = enrichEntry users b) : a = b := by
  cases a
  cases b
  simp only [enrichEntry, EnrichedLog.mk.injEq] at h
  simp [AttEntry.mk.injEq, h.1, h.2.1, h.2.2.2.1, h.2.2.2.2.1, h.2.2.2.2.2]

/-- C1: normalization yields the same ordered record sequence for a
bare array, a data-wrapped array, and a keyed mapping whose values in
order are that sequence. -/
theorem c1_normalization_three_shapes :
    ∀ (α : Type) (xs : List α) (kvs : List (String × α)),
      normalizeResponse (RawResponse.list xs) = xs
      ∧ normalizeResponse (RawResponse.wrapped xs) = xs
      ∧ (kvs.map Prod.snd = xs → normalizeResponse (RawResponse.keyed kvs) = xs) := by
  intro α xs kvs
  exact ⟨rfl, rfl, fun h => h⟩

/-- Witness for C1 at a concrete response triple. -/
theorem c1_normalization_three_shapes_witness :
    normalizeResponse (RawResponse.list [3, 4]) = [3, 4]
    ∧ normalizeResponse (RawResponse.wrapped [3, 4]) = [3, 4]
    ∧ normalizeResponse (RawResponse.keyed [("a", 3), ("b", 4)]) = [3, 4] :=
  ⟨(c1_normalization_three_shapes Nat [3, 4] [("a", 3), ("b", 4)]).1,
   (c1_normalization_three_shapes Nat [3, 4] [("a", 3), ("b", 4)]).2.1,
   (c1_normalization_three_shapes Nat [3, 4] [("a", 3), ("b", 4)]).2.2 rfl⟩

/-- C2: a record whose timestamp parses to `ts` appears in the
enriched log list exactly when it is among the normalized records and
`startOfYear <= ts <= now` (inclusive on both ends), so a record at
exactly Jan 1 00:00:00 is kept and anything strictly outside the
window is dropped. -/
theorem c2_window_filter :
    ∀ (users : List EnrolledUser) (parse : String → Option Int) (startOfYear now : Int)
      (logs : List AttEntry) (e : AttEntry) (ts : Int),
      parse e.record_time = some ts →
      (enrichEntry users e ∈ enrichLogs users parse startOfYear now logs
        ↔ (e ∈ logs ∧ startOfYear ≤ ts ∧ ts ≤ now)) := by
  intro users parse startOfYear now logs e ts hp
  unfold enrichLogs
  rw [List.mem_map]
  constructor
  · rintro ⟨e', he', heq⟩
    have he : e' = e := enrichEntry_inj users e' e heq
    subst he
    rw [List.mem_filter] at he'
    have hw := he'.2
    simp only [inWindow, hp, Bool.and_eq_true, decide_eq_true_eq] at hw
    exact ⟨he'.1, hw.1, hw.2⟩
  · rintro ⟨hmem, h1, h2⟩
    refine ⟨e, ?_, rfl⟩
    rw [List.mem_filter]
    refine ⟨hmem, ?_⟩
    simp [inWindow, hp, h1, h2]

/-- Witness for C2 at a concrete record, parser and window. -/
theorem c2_window_filter_witness :
    (enrichEntry [] { sn := 1, user_id := 7, record_time := "t", type := 0, state := 0 }
        ∈ enrichLogs [] (fun _ => some 0) 0 5
            [{ sn := 1, user_id := 7, record_time := "t", type := 0, state := 0 }])
      ↔ (({ sn := 1, user_id := 7, record_time := "t", type := 0, state := 0 } : AttEntry)
          ∈ [({ sn := 1, user_id := 7, record_time := "t", type := 0, state := 0 } : AttEntry)]
         ∧ (0 : Int) ≤ 0 ∧ (0 : Int) ≤ 5) :=
  c2_window_filter [] (fun _ => some 0) 0 5
    [{ sn := 1, user_id := 7, record_time := "t", type := 0, state := 0 }]
    { sn := 1, user_id := 7, record_time := "t", type := 0, state := 0 } 0 rfl

/-- C3 counterexample: a user_id that IS present in the directory but
whose stored name is the empty string enriches to "Unknown", not to
the directory entry's (empty) name, refuting the claim that a present
user_id always yields the directory entry's name. -/
theorem c3_counterexample :
    ([({ user_id := 7, name := "", role := 0 } : EnrolledUser)].find?
        (fun u => u.user_id == (7 : Nat))
      = some { user_id := 7, name := "", role := 0 })
    ∧ (enrichEntry [{ user_id := 7, name := "", role := 0 }]
        { sn := 1, user_id := 7, record_time := "2025-01-02T00:00:00Z", type := 0, state := 0 }).name
      = "Unknown"
    ∧ ("Unknown" : String) ≠ "" := by
  refine ⟨rfl, rfl, ?_⟩
  decide

/-- C3 (amended): an absent user_id enriches to the literal "Unknown"
(not an error); a present user_id enriches to the directory entry's
name when that name is non-empty (truthy), and to "Unknown" when the
stored name is the empty string. -/
theorem c3_enrichment_name :
    ∀ (users : List EnrolledUser) (e : AttEntry),
      (users.find? (fun u => u.user_id == e.user_id) = none →
        (enrichEntry users e).name = "Unknown")
      ∧ (∀ u, users.find? (fun u => u.user_id == e.user_id) = some u →
          (enrichEntry users e).name = (if u.name = "" then "Unknown" else u.name)) := by
  intro users e
  constructor
  · intro hnone
    simp [enrichEntry, lookupName, hnone]
  · intro u hsome
    simp [enrichEntry, lookupName, hsome]

/-- Witness for C3 (amended) at a concrete directory and record. -/
theorem c3_enrichment_name_witness :
    (enrichEntry [] { sn := 1, user_id := 3, record_time := "t", type := 0, state := 0 }).name
      = "Unknown"
    ∧ (enrichEntry [{ user_id := 3, name := "Ana", role := 0 }]
        { sn := 1, user_id := 3, record_time := "t", type := 0, state := 0 }).name
      = (if ("Ana" : String) = "" then "Unknown" else "Ana") :=
  ⟨(c3_enrichment_name [] { sn := 1, user_id := 3, record_time := "t", type := 0, state := 0 }).1 rfl,
   (c3_enrichment_name [{ user_id := 3, name := "Ana", role := 0 }]
      { sn := 1, user_id := 3, record_time := "t", type := 0, state := 0 }).2
      { user_id := 3, name := "Ana", role := 0 } rfl⟩

/-- C9: a record whose user_id is present in the directory but whose
directory entry stores a falsy (empty) name enriches to the literal
"Unknown", because the lookup applies the JS or-operator to the found
name. -/
theorem c9_falsy_name_is_unknown :
    ∀ (users : List EnrolledUser) (e : AttEntry) (u : EnrolledUser),
      users.find? (fun v => v.user_id == e.user_id) = some u →
      u.name = "" →
      (enrichEntry users e).name = "Unknown" := by
  intro users e u hfind hname
  simp [enrichEntry, lookupName, hfind, hname]

/-- Witness for C9 at a concrete one-entry directory. -/
theorem c9_falsy_name_is_unknown_witness :
    (enrichEntry [{ user_id := 9, name := "", role := 1 }]
      { sn := 2, user_id := 9, record_time := "t", type := 0, state := 0 }).name = "Unknown" :=
  c9_falsy_name_is_unknown [{ user_id := 9, name := "", role := 1 }]
    { sn := 2, user_id := 9, record_time := "t", type := 0, state := 0 }
    { user_id := 9, name := "", role := 1 } rfl rfl

/-- C6: the push parser yields one record per ATTLOG-marked line (in
order), ignoring every other line without error; on the spec's example
payload it yields exactly the two records with userIds 7 and 9. -/
theorem c6_parse_attlog :
    (∀ raw : String,
      (parseAttlog raw).length
        = ((splitRN (trimChars raw.data)).filter
            (fun l => attlogMarker.isPrefixOf l)).length)
    ∧ parseAttlog "ATTLOG,7,2025-05-30T08:15:00Z\nGARBAGE\nATTLOG,9,2025-05-30T08:20:00Z"
      = [{ userId := some "7", time := some "2025-05-30T08:15:00Z" },
         { userId := some "9", time := some "2025-05-30T08:20:00Z" }] := by
  constructor
  · intro raw
    simp [parseAttlog]
  · decide

/-- C7: handling a device push request leaves the pull engine's cached
snapshot, enrolled-user directory and device details untouched; the
parsed records go only to the distribution channel. -/
theorem c7_push_does_not_touch_pull_state :
    ∀ (pubClientSet clientHasPublish : Bool) (outcome : Except String Unit)
      (st : ServerState) (sn raw : String),
      ((postCdataStep pubClientSet clientHasPublish outcome st sn raw).1.engine.lastPublishedPayload
        = st.engine.lastPublishedPayload)
      ∧ ((postCdataStep pubClientSet clientHasPublish outcome st sn raw).1.engine.enrolledUsers
        = st.engine.enrolledUsers)
      ∧ ((postCdataStep pubClientSet clientHasPublish outcome st sn raw).1.engine.deviceDetails
        = st.engine.deviceDetails)
      ∧ ((postCdataStep pubClientSet clientHasPublish outcome st sn raw).1.channelMsgs
        = st.channelMsgs
            ++ (handleCdata pubClientSet clientHasPublish outcome sn raw).published) := by
  intro pubClientSet clientHasPublish outcome st sn raw
  exact ⟨rfl, rfl, rfl, rfl⟩

/-- C8: each subscriber connection installs exactly one registration,
its disconnect removes exactly that registration (returning the
channel to baseline), a publish concurrent with a disconnect still
delivers to the full registered snapshot (no crash), and any sequence
of fresh connect/disconnect pairs leaves the registration list
exactly at baseline. -/
theorem c8_subscription_balance :
    ∀ (b : Bus) (h : Nat) (hs : List Nat),
      (subscribeHandler b h).handlers.length = b.handlers.length + 1
      ∧ (h ∉ b.handlers → unsubscribeHandler (subscribeHandler b h) h = b)
      ∧ (emitDuringDisconnect b h).1 = b.handlers
      ∧ ((∀ x ∈ hs, x ∉ b.handlers) →
          hs.foldl (fun acc i => unsubscribeHandler (subscribeHandler acc i) i) b = b) := by
  intro b h hs
  have pair : ∀ (c : Bus) (x : Nat), x ∉ c.handlers →
      unsubscribeHandler (subscribeHandler c x) x = c := by
    intro c x hx
    cases c with
    | mk l =>
      simp only [subscribeHandler, unsubscribeHandler]
      rw [List.erase_append_right _ hx]
      simp
  refine ⟨by simp [subscribeHandler], pair b h, rfl, ?_⟩
  induction hs generalizing b with
  | nil => intro _; rfl
  | cons x rest ih =>
    intro hfresh
    have hx : x ∉ b.handlers := hfresh x (List.mem_cons_self x rest)
    rw [List.foldl_cons, pair b x hx]
    exact ih b (fun y hy => hfresh y (List.mem_cons_of_mem x hy))

/-- Witness for C8 at a concrete bus and handler ids. -/
theorem c8_subscription_balance_witness :
    (subscribeHandler { handlers := [1, 2] } 3).handlers.length = 3
    ∧ unsubscribeHandler (subscribeHandler { handlers := [1, 2] } 3) 3 = { handlers := [1, 2] }
    ∧ (emitDuringDisconnect { handlers := [1, 2] } 3).1 = [1, 2]
    ∧ [5, 6].foldl (fun acc i => unsubscribeHandler (subscribeHandler acc i) i)
        ({ handlers := [1, 2] } : Bus) = { handlers := [1, 2] } :=
  ⟨(c8_subscription_balance { handlers := [1, 2] } 3 [5, 6]).1,
   (c8_subscription_balance { handlers := [1, 2] } 3 [5, 6]).2.1 (by decide),
   (c8_subscription_balance { handlers := [1, 2] } 3 [5, 6]).2.2.1,
   (c8_subscription_balance { handlers := [1, 2] } 3 [5, 6]).2.2.2 (by decide)⟩

/-- C10: the push handler acknowledges with plaintext "OK" for every
serial and body — including a body with zero ATTLOG lines and a
publish that throws (the error is caught) — and when zero records
parse nothing at all is published to the channel. -/
theorem c10_cdata_always_acknowledges :
    ∀ (pubClientSet clientHasPublish : Bool) (outcome : Except String Unit) (sn raw : String),
      (handleCdata pubClientSet clientHasPublish outcome sn raw).response = "OK"
      ∧ (parseAttlog raw = [] →
          (handleCdata pubClientSet clientHasPublish outcome sn raw).published = []
          ∧ (handleCdata pubClientSet clientHasPublish outcome sn raw).errorsLogged = [])
      ∧ (∀ e, outcome = Except.error e →
          (handleCdata pubClientSet clientHasPublish outcome sn raw).published = []) := by
  intro pubClientSet clientHasPublish outcome sn raw
  refine ⟨?_, ?_, ?_⟩
  · unfold handleCdata
    dsimp only
    split
    · split <;> rfl
    · rfl
  · intro hempty
    simp [handleCdata, hempty]
  · intro e he
    unfold handleCdata
    dsimp only
    split
    · cases clientHasPublish <;> simp [publishToRedis, he]
    · rfl

/-- Witness for C10: empty body and a throwing publish both still
acknowledge "OK" and publish nothing. -/
theorem c10_cdata_always_acknowledges_witness :
    (handleCdata true true (Except.error "boom") "SN1" "").response = "OK"
    ∧ (handleCdata true true (Except.error "boom") "SN1" "").published = []
    ∧ (handleCdata true true (Except.error "boom") "SN1" "").errorsLogged = [] :=
  ⟨(c10_cdata_always_acknowledges true true (Except.error "boom") "SN1" "").1,
   ((c10_cdata_always_acknowledges true true (Except.error "boom") "SN1" "").2.1 (by decide)).1,
   ((c10_cdata_always_acknowledges true true (Except.error "boom") "SN1" "").2.1 (by decide)).2⟩
